import Mathlib

/-!
Verification of the BYOB worker runner (`src/roma/byob/container/run_workers.cc`)
and its sample UDFs against their natural-language specification.

The development shallowly embeds:
* the protobuf size-delimited wire framing used by
  `ParseDelimitedFromZeroCopyStream` / `SerializeDelimitedToFileDescriptor`;
* the sequence of system actions performed by `WorkerImpl` (connect,
  handshake, mount setup, `pivot_root`, `exec`);
* the reaper (`reloader`) loop's per-iteration state transition on the
  `pid_to_udf` table, and the shutdown loop, as event traces;
* the `LoadRequest` handling loop of `main` (artifact write plus the
  worker-spawning loop);
* the sample UDF's prime sieve (`RunPrimeSieve`).
-/

namespace RunWorkers

/-! ## Wire framing

`run_workers.cc` and the sample UDFs exchange messages with protobuf's
delimited-message utilities.  That wire format is a base-128 varint encoding
of the payload size followed by the payload bytes. -/

/-- Base-128 varint encoding of a natural number, least-significant group
first, as written by protobuf's `WriteVarint`. -/
def varintEncode (n : Nat) : List Nat :=
  if h : n < 128 then [n]
  else (n % 128 + 128) :: varintEncode (n / 128)
decreasing_by
  exact Nat.div_lt_self (Nat.lt_of_lt_of_le (by omega) (Nat.le_of_not_lt h)) (by omega)

/-- Base-128 varint decoding: returns the decoded number and the remaining
bytes, or `none` if the stream ends inside a varint. -/
def varintDecode : List Nat → Option (Nat × List Nat)
  | [] => none
  | b :: rest =>
    if b < 128 then some (b, rest)
    else
      match varintDecode rest with
      | some (n, rest1) => some (b - 128 + 128 * n, rest1)
      | none => none

/-- A delimited message as serialized by
`google::protobuf::util::SerializeDelimitedToFileDescriptor`: the varint
size prefix followed by exactly that many payload bytes. -/
def frameDelimited (payload : List Nat) : List Nat :=
  varintEncode payload.length ++ payload

/-- Reading one delimited message from a byte stream, as performed by
`ParseDelimitedFromZeroCopyStream`: decode the varint size, then take that
many payload bytes; fails if the stream is too short. -/
def deframeDelimited (bytes : List Nat) : Option (List Nat × List Nat) :=
  match varintDecode bytes with
  | none => none
  | some (n, rest) =>
    if n ≤ rest.length then some (rest.take n, rest.drop n) else none

/-- The frame format claimed by the spec's wire-protocol section: an 8-byte
little-endian unsigned length followed by the payload. -/
def frameSpec8LE (payload : List Nat) : List Nat :=
  [payload.length % 256, payload.length / 256 % 256,
   payload.length / 256 ^ 2 % 256, payload.length / 256 ^ 3 % 256,
   payload.length / 256 ^ 4 % 256, payload.length / 256 ^ 5 % 256,
   payload.length / 256 ^ 6 % 256, payload.length / 256 ^ 7 % 256] ++ payload

theorem varintEncode_ne_nil (n : Nat) : varintEncode n ≠ [] := by
  unfold varintEncode
  split <;> simp

theorem varintDecode_encode (n : Nat) (rest : List Nat) :
    varintDecode (varintEncode n ++ rest) = some (n, rest) := by
  induction n using Nat.strong_induction_on with
  | _ n ih =>
    unfold varintEncode
    split
    · simp [varintDecode, *]
    · rename_i h
      have hlt : n / 128 < n :=
        Nat.div_lt_self (Nat.lt_of_lt_of_le (by omega) (Nat.le_of_not_lt h)) (by omega)
      simp only [List.cons_append, varintDecode]
      have hge : ¬ n % 128 + 128 < 128 := by omega
      simp only [if_neg hge, List.append_eq, ih (n / 128) hlt]
      have : n % 128 + 128 - 128 + 128 * (n / 128) = n := by omega
      rw [this]

/-! ## Decimal rendering and parsing

`WorkerImpl` passes the duplicated socket descriptor to the UDF binary as a
decimal string built by `absl::StrCat`; the UDF parses it back with
`std::stoi` (or `absl::SimpleAtoi`).  We model the rendering with
`Nat.digits` and the parsing as the standard left fold over digit
characters (the launcher only ever produces all-digit argument strings). -/

/-- The ASCII character for one decimal digit. -/
def digitChar (d : Nat) : Char :=
  match d with
  | 0 => '0' | 1 => '1' | 2 => '2' | 3 => '3' | 4 => '4'
  | 5 => '5' | 6 => '6' | 7 => '7' | 8 => '8' | _ => '9'

/-- Numeric value of an ASCII digit character, as computed by decimal
parsers (`c - '0'`). -/
def digitVal (c : Char) : Nat := c.toNat - 48

/-- Decimal rendering of a natural number, the model of
`absl::StrCat(connection_fd)`. -/
def decimalString (n : Nat) : String :=
  if n = 0 then "0" else String.mk ((Nat.digits 10 n).reverse.map digitChar)

/-- Model of `std::stoi` / `absl::SimpleAtoi` on the all-digit strings the
launcher produces: fails on an empty or non-digit string, otherwise folds
up the decimal value. -/
def stoiModel (s : String) : Option Nat :=
  if s.data = [] then none
  else if s.data.all (fun c => c.isDigit) then
    some (s.data.foldl (fun a c => 10 * a + digitVal c) 0)
  else none

theorem digitChar_isDigit {d : Nat} (h : d < 10) : (digitChar d).isDigit = true := by
  interval_cases d <;> decide

theorem digitVal_digitChar {d : Nat} (h : d < 10) : digitVal (digitChar d) = d := by
  interval_cases d <;> decide

theorem foldl_decimal_reverse (ds : List Nat) (a : Nat) :
    ds.reverse.foldl (fun x d => 10 * x + d) a =
      a * 10 ^ ds.length + Nat.ofDigits 10 ds := by
  induction ds generalizing a with
  | nil => simp [Nat.ofDigits]
  | cons d t ih =>
    simp only [List.reverse_cons, List.foldl_append, ih, List.foldl_cons,
      List.foldl_nil, List.length_cons, Nat.ofDigits_cons, Nat.cast_id]
    ring

theorem foldl_digitChars (ds : List Nat) (a : Nat) (h : ∀ d ∈ ds, d < 10) :
    (ds.map digitChar).foldl (fun x c => 10 * x + digitVal c) a =
      ds.foldl (fun x d => 10 * x + d) a := by
  induction ds generalizing a with
  | nil => rfl
  | cons d t ih =>
    simp only [List.map_cons, List.foldl_cons]
    rw [digitVal_digitChar (h d (List.mem_cons_self d t))]
    exact ih _ fun e he => h e (List.mem_cons_of_mem d he)

/-- Parsing undoes rendering: `std::stoi(absl::StrCat(n)) = n`. -/
theorem stoiModel_decimalString (n : Nat) : stoiModel (decimalString n) = some n := by
  by_cases h0 : n = 0
  · subst h0; decide
  · have hne : Nat.digits 10 n ≠ [] := Nat.digits_ne_nil_iff_ne_zero.mpr h0
    have hlt : ∀ d ∈ (Nat.digits 10 n).reverse, d < 10 := fun d hd =>
      Nat.digits_lt_base (by norm_num) (List.mem_reverse.mp hd)
    have hall : ((Nat.digits 10 n).reverse.map digitChar).all (fun c => c.isDigit) = true := by
      simp only [List.all_eq_true]
      intro c hc
      obtain ⟨d, hd, rfl⟩ := List.mem_map.mp hc
      exact digitChar_isDigit (hlt d hd)
    unfold decimalString stoiModel
    rw [if_neg h0]
    have hdata : (String.mk ((Nat.digits 10 n).reverse.map digitChar)).data =
        (Nat.digits 10 n).reverse.map digitChar := rfl
    rw [hdata, if_neg (by simp [hne]), if_pos hall, foldl_digitChars _ _ hlt]
    have h2 := foldl_decimal_reverse (Nat.digits 10 n) 0
    simp only [Nat.zero_mul, Nat.zero_add, Nat.ofDigits_digits] at h2
    rw [h2]

/-! ## The `WorkerImpl` action trace

`WorkerImpl` (run in the cloned child) performs, in program order: create a
socket, connect it to the control-plane path, write the 36-byte code token,
remount `/` private, bind each configured mount under the pivot-root
directory, bind the pivot-root directory onto itself and make it a slave
mount, create the `pivot` subdirectory, `pivot_root`, `chdir("/")`, detach
the old root, remount every mount read-only-bind, remount the binary's
directory, `dup` the socket and `execl` the UDF binary with the duplicated
descriptor rendered in decimal as `argv[1]`. -/

/-- One system action performed by `WorkerImpl`. -/
inductive WorkerAction where
  | createSocket
  | connect (socketName : String)
  | writeHandshake (codeToken : String) (nbytes : Nat)
  | mountRootPrivate
  | createDir (path : String)
  | bindMount (src target : String)
  | bindSelfRec (dir : String)
  | mountSlaveRec (dir : String)
  | pivotRoot (newRoot putOld : String)
  | chdirRoot
  | umountDetachPivot
  | remountBind (dir : String)
  | dupSocket (oldFd newFd : Nat)
  | execBinary (path : String) (argv : List String)
deriving DecidableEq, Repr

/-- The per-mount setup loop of `WorkerImpl`: for each configured mount,
create the target directory under the pivot-root directory and bind-mount
the source onto it. -/
def mountSetupActions (pivotRootDir : String) : List String → List WorkerAction
  | [] => []
  | m :: ms =>
    .createDir (pivotRootDir ++ m) :: .bindMount m (pivotRootDir ++ m) ::
      mountSetupActions pivotRootDir ms

/-- The post-`pivot_root` remount loop of `WorkerImpl`: remount each mount
with `MS_REMOUNT | MS_BIND`. -/
def remountActions : List String → List WorkerAction
  | [] => []
  | m :: ms => .remountBind m :: remountActions ms

/-- `std::filesystem::path(p).parent_path()`: everything before the final
path separator. -/
def parentDir (p : String) : String :=
  String.intercalate "/" (p.splitOn "/").dropLast

/-- The argv with which `WorkerImpl` executes the UDF binary:
`argv[0]` is the binary path and `argv[1]` the decimal rendering of the
duplicated socket descriptor. -/
def workerExecArgv (binaryPath : String) (dupFd : Nat) : List String :=
  [binaryPath, decimalString dupFd]

/-- The complete action trace of `WorkerImpl`, in program order. -/
def workerImplTrace (mounts : List String) (pivotRootDir socketName codeToken binaryPath : String)
    (fd dupFd : Nat) : List WorkerAction :=
  [.createSocket, .connect socketName, .writeHandshake codeToken 36, .mountRootPrivate]
    ++ mountSetupActions pivotRootDir mounts
    ++ [.bindSelfRec pivotRootDir, .mountSlaveRec pivotRootDir,
        .createDir (pivotRootDir ++ "/pivot"),
        .pivotRoot pivotRootDir (pivotRootDir ++ "/pivot"),
        .chdirRoot, .umountDetachPivot]
    ++ remountActions mounts
    ++ [.remountBind (parentDir binaryPath), .dupSocket fd dupFd,
        .execBinary binaryPath (workerExecArgv binaryPath dupFd)]

/-- Recognizers for trace actions. -/
def isConnect : WorkerAction → Bool
  | .connect _ => true
  | _ => false

def isHandshake : WorkerAction → Bool
  | .writeHandshake _ _ => true
  | _ => false

def isPivotRoot : WorkerAction → Bool
  | .pivotRoot _ _ => true
  | _ => false

def isExec : WorkerAction → Bool
  | .execBinary _ _ => true
  | _ => false

/-! ## The UDF side (`payload_read.cc`)

The sample UDF `payload_read.cc` checks `argc`, parses `argv[1]` as its
socket descriptor, reads one delimited request from that descriptor, sums
the sizes of the request's payloads, and writes one delimited response on
the same descriptor. -/

/-- Observable outcome of one run of the `payload_read` UDF: which
descriptor it read from, which it wrote to, and the payload size it
reported. -/
structure UdfRun where
  readFd : Nat
  writeFd : Nat
  responsePayloadSize : Nat
deriving DecidableEq, Repr

/-- `main` of `payload_read.cc`: fails if `argc < 2` or `argv[1]` does not
parse as an integer; otherwise performs the whole exchange on the parsed
descriptor. -/
def payloadReadMain (argv : List String) (payloads : List (List Nat)) : Option UdfRun :=
  match argv.get? 1 with
  | none => none
  | some fdStr =>
    match stoiModel fdStr with
    | none => none
    | some fd => some ⟨fd, fd, (payloads.map List.length).sum⟩

/-! ## Helper lemmas on the worker trace -/

theorem filter_isHandshake_mountSetup (p : String) (ms : List String) :
    (mountSetupActions p ms).filter isHandshake = [] := by
  induction ms with
  | nil => rfl
  | cons m t ih => simp [mountSetupActions, isHandshake, List.filter, ih]

theorem filter_isHandshake_remount (ms : List String) :
    (remountActions ms).filter isHandshake = [] := by
  induction ms with
  | nil => rfl
  | cons m t ih => simp [remountActions, isHandshake, List.filter, ih]

theorem all_nonConnect_mountSetup (p : String) (ms : List String) :
    (mountSetupActions p ms).all (fun a => !isConnect a && !isHandshake a) = true := by
  induction ms with
  | nil => rfl
  | cons m t ih => simp only [mountSetupActions, List.all_cons, ih]; rfl

theorem all_nonConnect_remount (ms : List String) :
    (remountActions ms).all (fun a => !isConnect a && !isHandshake a) = true := by
  induction ms with
  | nil => rfl
  | cons m t ih => simp only [remountActions, List.all_cons, ih]; rfl

/-- The trace of `WorkerImpl` written out head-first: program order starts
with the socket creation, the connect, and the 36-byte handshake, and only
then performs the filesystem setup. -/
theorem workerImplTrace_eq (mounts : List String)
    (pivotRootDir socketName codeToken binaryPath : String) (fd dupFd : Nat) :
    workerImplTrace mounts pivotRootDir socketName codeToken binaryPath fd dupFd =
      .createSocket :: .connect socketName :: .writeHandshake codeToken 36 ::
        .mountRootPrivate ::
        ((mountSetupActions pivotRootDir mounts ++
          [.bindSelfRec pivotRootDir, .mountSlaveRec pivotRootDir,
           .createDir (pivotRootDir ++ "/pivot"),
           .pivotRoot pivotRootDir (pivotRootDir ++ "/pivot"),
           .chdirRoot, .umountDetachPivot]) ++
         remountActions mounts ++
         [.remountBind (parentDir binaryPath), .dupSocket fd dupFd,
          .execBinary binaryPath (workerExecArgv binaryPath dupFd)]) := rfl

theorem filter_isExec_mountSetup (p : String) (ms : List String) :
    (mountSetupActions p ms).filter isExec = [] := by
  induction ms with
  | nil => rfl
  | cons m t ih => simp [mountSetupActions, isExec, List.filter, ih]

theorem filter_isExec_remount (ms : List String) :
    (remountActions ms).filter isExec = [] := by
  induction ms with
  | nil => rfl
  | cons m t ih => simp [remountActions, isExec, List.filter, ih]

/-- The trace of `WorkerImpl` with the final `execl` split off: everything
else — handshake and the whole filesystem setup included — comes before
the exec of the UDF binary. -/
theorem workerImplTrace_concat (mounts : List String)
    (pivotRootDir socketName codeToken binaryPath : String) (fd dupFd : Nat) :
    workerImplTrace mounts pivotRootDir socketName codeToken binaryPath fd dupFd =
      (.createSocket :: .connect socketName :: .writeHandshake codeToken 36 ::
        .mountRootPrivate ::
        ((mountSetupActions pivotRootDir mounts ++
          [.bindSelfRec pivotRootDir, .mountSlaveRec pivotRootDir,
           .createDir (pivotRootDir ++ "/pivot"),
           .pivotRoot pivotRootDir (pivotRootDir ++ "/pivot"),
           .chdirRoot, .umountDetachPivot]) ++
         remountActions mounts ++
         [.remountBind (parentDir binaryPath), .dupSocket fd dupFd]))
      ++ [.execBinary binaryPath (workerExecArgv binaryPath dupFd)] := by
  rw [workerImplTrace_eq]
  simp [List.append_assoc]

/-- The property the spec's spawn-algorithm ordering asserts: the connect
to the control plane happens only after `pivot_root` has run. -/
def connectOnlyAfterPivot (tr : List WorkerAction) : Prop :=
  ∀ i j, tr.findIdx? isPivotRoot = some i → tr.findIdx? isConnect = some j → i < j

/-! ## Claim theorems: wire framing and worker startup -/

/-- C2 counterexample: the framing used on the per-worker socket is the
protobuf varint-delimited format, not an 8-byte little-endian length
prefix.  The empty payload frames to the single byte `0x00`, not to eight
zero bytes. -/
theorem frame_delimited_not_8le : frameDelimited [] ≠ frameSpec8LE [] := by
  unfold frameDelimited frameSpec8LE varintEncode
  simp

/-- C2 (amended): every framed message consists of a base-128 varint
encoding of the payload length `N` followed by exactly the `N` payload
bytes; reading one frame back from a stream recovers the payload and
leaves the rest of the stream untouched. -/
theorem frameDelimited_roundtrip (payload rest : List Nat) :
    deframeDelimited (frameDelimited payload ++ rest) = some (payload, rest) := by
  unfold deframeDelimited frameDelimited
  rw [List.append_assoc, varintDecode_encode]
  simp only [List.length_append]
  rw [if_pos (Nat.le_add_right _ _), List.take_left, List.drop_left]

/-- C3 counterexample: in `WorkerImpl` the connect (trace index 1) happens
before `pivot_root` (trace index 9 with one configured mount), so the
connect-and-handshake step does not come after sandbox filesystem setup. -/
theorem connect_before_pivot_counterexample :
    ¬ connectOnlyAfterPivot (workerImplTrace ["/lib"] "/tmp/proot" "/sockdir/abcd.sock"
        "0a0b0c0d-0e0f-1011-1213-141516171819" "/binpath/udf" 3 4) := by
  intro h
  have h91 := h 9 1 rfl rfl
  omega

/-- C3 (amended): every spawn connects to the control plane and writes the
code-token handshake first; all sandbox filesystem setup (the private
remount of root, the bind mounts and `pivot_root`) happens after the
handshake, and the trace never connects or handshakes again; the setup in
turn precedes the exec of the UDF binary, which is the unique exec action
and the very last action of the trace. -/
theorem connect_handshake_precede_setup (mounts : List String)
    (pivotRootDir socketName codeToken binaryPath : String) (fd dupFd : Nat) :
    (workerImplTrace mounts pivotRootDir socketName codeToken binaryPath fd dupFd).take 3 =
      [.createSocket, .connect socketName, .writeHandshake codeToken 36]
    ∧ WorkerAction.mountRootPrivate ∈
        (workerImplTrace mounts pivotRootDir socketName codeToken binaryPath fd dupFd).drop 3
    ∧ WorkerAction.pivotRoot pivotRootDir (pivotRootDir ++ "/pivot") ∈
        (workerImplTrace mounts pivotRootDir socketName codeToken binaryPath fd dupFd).drop 3
    ∧ ((workerImplTrace mounts pivotRootDir socketName codeToken binaryPath fd dupFd).drop 3).all
        (fun a => !isConnect a && !isHandshake a) = true
    ∧ (workerImplTrace mounts pivotRootDir socketName codeToken binaryPath fd dupFd).filter
        isExec = [.execBinary binaryPath (workerExecArgv binaryPath dupFd)]
    ∧ (workerImplTrace mounts pivotRootDir socketName codeToken binaryPath fd dupFd).getLast? =
        some (.execBinary binaryPath (workerExecArgv binaryPath dupFd)) := by
  refine ⟨rfl, by simp [workerImplTrace], by simp [workerImplTrace], ?_, ?_, ?_⟩
  · rw [workerImplTrace_eq]
    simp only [List.drop_succ_cons, List.drop_zero, List.all_cons, List.all_append,
      all_nonConnect_mountSetup, all_nonConnect_remount, Bool.true_and, Bool.and_true]
    simp [isConnect, isHandshake]
  · rw [workerImplTrace_eq]
    simp only [List.filter_cons, List.filter_append, filter_isExec_mountSetup,
      filter_isExec_remount]
    simp [isExec]
  · rw [workerImplTrace_concat, List.getLast?_concat]

/-- C6: immediately after connecting to the control-plane socket, the
worker writes exactly 36 bytes of code token, and that handshake write is
the only one in the worker's whole startup trace. -/
theorem handshake_is_36_bytes_once (mounts : List String)
    (pivotRootDir socketName codeToken binaryPath : String) (fd dupFd : Nat) :
    (workerImplTrace mounts pivotRootDir socketName codeToken binaryPath fd dupFd).take 3 =
      [.createSocket, .connect socketName, .writeHandshake codeToken 36]
    ∧ (workerImplTrace mounts pivotRootDir socketName codeToken binaryPath fd dupFd).filter
        isHandshake = [.writeHandshake codeToken 36] := by
  refine ⟨rfl, ?_⟩
  rw [workerImplTrace_eq]
  simp only [List.filter_cons, List.filter_append, filter_isHandshake_mountSetup,
    filter_isHandshake_remount]
  simp [isHandshake]

/-- C7: the UDF binary is executed with `argv[1]` the decimal rendering of
the duplicated socket descriptor, and `payload_read.cc` parses that
integer back and performs both its read and its write on that same
descriptor. -/
theorem udf_descriptor_handoff (mounts : List String)
    (pivotRootDir socketName codeToken binaryPath : String) (fd dupFd : Nat)
    (payloads : List (List Nat)) :
    WorkerAction.execBinary binaryPath (workerExecArgv binaryPath dupFd) ∈
        workerImplTrace mounts pivotRootDir socketName codeToken binaryPath fd dupFd
    ∧ (workerExecArgv binaryPath dupFd).get? 1 = some (decimalString dupFd)
    ∧ payloadReadMain (workerExecArgv binaryPath dupFd) payloads =
        some ⟨dupFd, dupFd, (payloads.map List.length).sum⟩ := by
  refine ⟨by simp [workerImplTrace], rfl, ?_⟩
  simp [payloadReadMain, workerExecArgv, stoiModel_decimalString]

/-! ## The reaper (`reloader`) loop and shutdown

`main` keeps a `pid_to_udf` table guarded by a mutex.  The `reloader`
thread waits for any child with `waitpid(-1)`; an unknown pid is logged
and skipped; a known pid is erased from the table, and then either (exit
status zero) a replacement worker is spawned, the dead worker's pivot-root
directory removed, and the replacement inserted, or (non-zero or abnormal
status) the pivot-root directory is removed and the loop exits via
`break`.  At shutdown, `main` iterates the remaining table and for each
entry kills the pid, waits for it, and removes its pivot-root
directory. -/

/-- The per-worker bookkeeping record (`UdfInstanceMetadata` in `main`). -/
structure UdfInstanceMetadata where
  pivot_root_dir : String
  code_token : String
  binary_path : String
deriving DecidableEq, Repr

/-- A child's exit status as classified by `WIFEXITED` / `WEXITSTATUS`. -/
inductive ExitStatus where
  | exited (code : Nat)
  | signaled (sig : Nat)
deriving DecidableEq, Repr

/-- Negation of the reloader's abnormal-exit test
`!WIFEXITED(status) || WEXITSTATUS(status) != 0`. -/
def statusOkZero : ExitStatus → Bool
  | .exited 0 => true
  | _ => false

/-- Observable system events on the reaper and shutdown paths. -/
inductive SysEvent where
  | waitReturn (pid : Nat)
  | spawnWorker (pid : Nat) (pivotRootDir codeToken binaryPath : String)
  | removeDir (dir : String)
  | killSig (pid : Nat)
deriving DecidableEq, Repr

/-- `pid_to_udf.erase(it)` on the association-list model of the table. -/
def eraseKey (pid : Nat) : List (Nat × UdfInstanceMetadata) → List (Nat × UdfInstanceMetadata)
  | [] => []
  | (q, v) :: rest => if q = pid then rest else (q, v) :: eraseKey pid rest

/-- Result of one iteration of the reloader loop: the new table, the
system events it performed in order, and whether the loop continues. -/
structure ReloaderStep where
  table : List (Nat × UdfInstanceMetadata)
  events : List SysEvent
  continueLoop : Bool
deriving DecidableEq, Repr

/-- One iteration of the reloader loop, entered when `waitpid(-1)` has
returned `pid` with `status`.  `freshPid` and `freshDir` are the pid and
pivot-root directory produced by `ConnectSendCloneAndExec` if the
iteration respawns. -/
def reloaderIteration (table : List (Nat × UdfInstanceMetadata)) (pid : Nat)
    (status : ExitStatus) (freshPid : Nat) (freshDir : String) : ReloaderStep :=
  match table.lookup pid with
  | none => ⟨table, [.waitReturn pid], true⟩
  | some udf =>
    if statusOkZero status then
      ⟨(freshPid, ⟨freshDir, udf.code_token, udf.binary_path⟩) :: eraseKey pid table,
       [.waitReturn pid,
        .spawnWorker freshPid freshDir udf.code_token udf.binary_path,
        .removeDir udf.pivot_root_dir],
       true⟩
    else
      ⟨eraseKey pid table,
       [.waitReturn pid, .removeDir udf.pivot_root_dir],
       false⟩

/-- The shutdown loop of `main`: for each remaining table entry, kill the
pid, wait for it, and remove its pivot-root directory. -/
def shutdownEvents : List (Nat × UdfInstanceMetadata) → List SysEvent
  | [] => []
  | (pid, udf) :: rest =>
    .killSig pid :: .waitReturn pid :: .removeDir udf.pivot_root_dir :: shutdownEvents rest

/-- The property claimed by C1: every reaped worker found in the table is
respawned — its pivot-root directory is removed, a replacement with the
same code token and binary path is spawned, and the replacement is
re-inserted into the table — regardless of its exit status. -/
def reloaderAlwaysRespawns : Prop :=
  ∀ table pid status freshPid freshDir udf,
    List.lookup pid table = some udf →
    SysEvent.removeDir udf.pivot_root_dir ∈
        (reloaderIteration table pid status freshPid freshDir).events
    ∧ SysEvent.spawnWorker freshPid freshDir udf.code_token udf.binary_path ∈
        (reloaderIteration table pid status freshPid freshDir).events
    ∧ (reloaderIteration table pid status freshPid freshDir).table.lookup freshPid =
        some ⟨freshDir, udf.code_token, udf.binary_path⟩

/-! ## Claim theorems: reaper and shutdown -/

/-- C1 counterexample: a worker that exits with status 1 is reaped — its
pivot-root directory is removed — but no replacement is spawned and
nothing is re-inserted: the reloader loop `break`s instead. -/
theorem reloader_not_always_respawns : ¬ reloaderAlwaysRespawns := by
  intro h
  obtain ⟨-, hspawn, -⟩ :=
    h [(5, ⟨"/tmp/d0", "tok", "/bin/u"⟩)] 5 (.exited 1) 7 "/tmp/d1"
      ⟨"/tmp/d0", "tok", "/bin/u"⟩ rfl
  exact absurd hspawn (by decide)

/-- C1 (amended): on a zero exit status the reaper removes the dead
worker's pivot-root directory and spawns a replacement with the same code
token and binary path, re-inserting it into the table; on a non-zero or
abnormal exit it removes the pivot-root directory but spawns no
replacement and leaves the reaper loop. -/
theorem reloader_respawn_policy (table : List (Nat × UdfInstanceMetadata)) (pid : Nat)
    (status : ExitStatus) (freshPid : Nat) (freshDir : String) (udf : UdfInstanceMetadata)
    (h : table.lookup pid = some udf) :
    (statusOkZero status = true →
      (reloaderIteration table pid status freshPid freshDir).events =
        [.waitReturn pid, .spawnWorker freshPid freshDir udf.code_token udf.binary_path,
         .removeDir udf.pivot_root_dir]
      ∧ (reloaderIteration table pid status freshPid freshDir).table.lookup freshPid =
          some ⟨freshDir, udf.code_token, udf.binary_path⟩
      ∧ (reloaderIteration table pid status freshPid freshDir).continueLoop = true)
    ∧ (statusOkZero status = false →
      (reloaderIteration table pid status freshPid freshDir).events =
        [.waitReturn pid, .removeDir udf.pivot_root_dir]
      ∧ (reloaderIteration table pid status freshPid freshDir).table = eraseKey pid table
      ∧ (reloaderIteration table pid status freshPid freshDir).continueLoop = false) := by
  constructor <;> intro hs <;>
    simp [reloaderIteration, h, hs, List.lookup]

theorem reloader_respawn_policy_witness :
    (reloaderIteration [(5, ⟨"/tmp/d0", "tok", "/bin/u"⟩)] 5 (.exited 0) 7 "/tmp/d1").events =
      [.waitReturn 5, .spawnWorker 7 "/tmp/d1" "tok" "/bin/u", .removeDir "/tmp/d0"]
    ∧ (reloaderIteration [(5, ⟨"/tmp/d0", "tok", "/bin/u"⟩)] 5
        (.exited 0) 7 "/tmp/d1").table.lookup 7 = some ⟨"/tmp/d1", "tok", "/bin/u"⟩
    ∧ (reloaderIteration [(5, ⟨"/tmp/d0", "tok", "/bin/u"⟩)] 5
        (.exited 0) 7 "/tmp/d1").continueLoop = true :=
  (reloader_respawn_policy [(5, ⟨"/tmp/d0", "tok", "/bin/u"⟩)] 5 (.exited 0) 7 "/tmp/d1"
    ⟨"/tmp/d0", "tok", "/bin/u"⟩ rfl).1 rfl

/-- C10: when `waitpid` returns a pid that is not in the table, the
reaper changes nothing — same table, no directory removal, no spawn — and
continues waiting. -/
theorem reloader_unknown_pid_noop (table : List (Nat × UdfInstanceMetadata)) (pid : Nat)
    (status : ExitStatus) (freshPid : Nat) (freshDir : String)
    (h : table.lookup pid = none) :
    reloaderIteration table pid status freshPid freshDir =
      ⟨table, [.waitReturn pid], true⟩ := by
  unfold reloaderIteration
  rw [h]

theorem reloader_unknown_pid_noop_witness :
    reloaderIteration [(3, ⟨"/tmp/d0", "tok", "/bin/u"⟩)] 9 (.exited 0) 7 "/tmp/d1" =
      ⟨[(3, ⟨"/tmp/d0", "tok", "/bin/u"⟩)], [.waitReturn 9], true⟩ :=
  reloader_unknown_pid_noop [(3, ⟨"/tmp/d0", "tok", "/bin/u"⟩)] 9 (.exited 0) 7 "/tmp/d1" rfl

/-- C5: a pivot-root directory is removed only after `waitpid` for its
owner's pid has returned: in every reaper iteration, and along the whole
shutdown loop, each `removeDir` event is preceded by the `waitReturn` of
the worker that owned that directory. -/
theorem remove_only_after_wait (table : List (Nat × UdfInstanceMetadata)) (pid : Nat)
    (status : ExitStatus) (freshPid : Nat) (freshDir : String) :
    (∀ i d, ((reloaderIteration table pid status freshPid freshDir).events).get? i =
        some (.removeDir d) →
      ∃ j p udf, j < i
        ∧ ((reloaderIteration table pid status freshPid freshDir).events).get? j =
            some (.waitReturn p)
        ∧ table.lookup p = some udf ∧ udf.pivot_root_dir = d)
    ∧ (∀ tbl : List (Nat × UdfInstanceMetadata), ∀ i d,
        (shutdownEvents tbl).get? i = some (.removeDir d) →
      ∃ j p udf, j < i ∧ (shutdownEvents tbl).get? j = some (.waitReturn p)
        ∧ (p, udf) ∈ tbl ∧ udf.pivot_root_dir = d) := by
  constructor
  · intro i d hi
    rcases hlook : table.lookup pid with _ | udf
    · simp only [reloaderIteration, hlook] at hi
      match i, hi with
      | 0, hi => simp at hi
      | n + 1, hi => simp at hi
    · cases hst : statusOkZero status
      · simp [reloaderIteration, hlook, hst] at hi
        match i, hi with
        | 0, hi => simp at hi
        | 1, hi =>
          have hd0 : udf.pivot_root_dir = d := by simpa using hi
          exact ⟨0, pid, udf, by omega, by simp [reloaderIteration, hlook, hst], hlook, hd0⟩
        | n + 2, hi => simp at hi
      · simp [reloaderIteration, hlook, hst] at hi
        match i, hi with
        | 0, hi => simp at hi
        | 1, hi => simp at hi
        | 2, hi =>
          have hd0 : udf.pivot_root_dir = d := by simpa using hi
          exact ⟨0, pid, udf, by omega, by simp [reloaderIteration, hlook, hst], hlook, hd0⟩
        | n + 3, hi => simp at hi
  · intro tbl
    induction tbl with
    | nil => intro i d hi; simp [shutdownEvents] at hi
    | cons hd rest ih =>
      obtain ⟨p0, u0⟩ := hd
      intro i d hi
      match i, hi with
      | 0, hi => simp [shutdownEvents] at hi
      | 1, hi => simp [shutdownEvents] at hi
      | 2, hi =>
        have hd0 : u0.pivot_root_dir = d := by simpa [shutdownEvents] using hi
        exact ⟨1, p0, u0, by omega, by simp [shutdownEvents],
          List.mem_cons_self _ _, hd0⟩
      | n + 3, hi =>
        have hrest : (shutdownEvents rest).get? n = some (.removeDir d) := by
          simpa [shutdownEvents] using hi
        obtain ⟨j, p, udf, hj, hw, hm, hd2⟩ := ih n d hrest
        exact ⟨j + 3, p, udf, by omega, by simpa [shutdownEvents] using hw,
          List.mem_cons_of_mem _ hm, hd2⟩

theorem remove_only_after_wait_witness :
    ∃ j p udf, j < 2
      ∧ (shutdownEvents [(3, ⟨"/tmp/d0", "tok", "/bin/u"⟩)]).get? j =
          some (.waitReturn p)
      ∧ (p, udf) ∈ [(3, (⟨"/tmp/d0", "tok", "/bin/u"⟩ : UdfInstanceMetadata))]
      ∧ udf.pivot_root_dir = "/tmp/d0" :=
  (remove_only_after_wait [] 0 (.exited 0) 0 "").2
    [(3, ⟨"/tmp/d0", "tok", "/bin/u"⟩)] 2 "/tmp/d0" rfl

/-! ## Load-request handling in `main`

For each `LoadRequest`, `main` writes the binary content to
`progdir / uuid`, marks it owner-read and owner-exec, then spawns
`n_workers - 1` workers in a loop and one final worker out of the loop,
inserting each with `pid_to_udf[pid] = udf`. -/

/-- `pid_to_udf[pid] = udf`: insert-or-assign on the association list. -/
def storeEntry : List (Nat × UdfInstanceMetadata) → Nat → UdfInstanceMetadata →
    List (Nat × UdfInstanceMetadata)
  | [], p, u => [(p, u)]
  | (q, v) :: rest, p, u =>
    if q = p then (p, u) :: rest else (q, v) :: storeEntry rest p u

/-- The workers spawned for one `LoadRequest` with `n_workers = n`, in
spawn order: `n - 1` in the loop and one final worker.  `fresh i` is the
pid and pivot-root directory minted by the `i`-th call to
`ConnectSendCloneAndExec`. -/
def loadSpawnEntries (codeToken binaryPath : String) (n : Nat) (fresh : Nat → Nat × String) :
    List (Nat × UdfInstanceMetadata) :=
  (List.range (n - 1)).map (fun i => ((fresh i).1, ⟨(fresh i).2, codeToken, binaryPath⟩))
    ++ [((fresh (n - 1)).1, ⟨(fresh (n - 1)).2, codeToken, binaryPath⟩)]

/-- The `pid_to_udf` table after one `LoadRequest` has been handled. -/
def loadRequestTable (codeToken binaryPath : String) (n : Nat) (fresh : Nat → Nat × String)
    (table : List (Nat × UdfInstanceMetadata)) : List (Nat × UdfInstanceMetadata) :=
  (loadSpawnEntries codeToken binaryPath n fresh).foldl
    (fun t e => storeEntry t e.1 e.2) table

theorem lookup_storeEntry_self (t : List (Nat × UdfInstanceMetadata)) (p : Nat)
    (u : UdfInstanceMetadata) : (storeEntry t p u).lookup p = some u := by
  induction t with
  | nil => simp [storeEntry, List.lookup]
  | cons hd rest ih =>
    obtain ⟨q, v⟩ := hd
    by_cases hq : q = p
    · simp [storeEntry, hq, List.lookup]
    · have hpq : (p == q) = false := by simpa using Ne.symm hq
      simp [storeEntry, hq, List.lookup, ih, hpq]

theorem lookup_storeEntry_ne (t : List (Nat × UdfInstanceMetadata)) (p q : Nat)
    (u : UdfInstanceMetadata) (h : q ≠ p) :
    (storeEntry t p u).lookup q = t.lookup q := by
  have hqp : (q == p) = false := by simpa using h
  induction t with
  | nil => simp [storeEntry, List.lookup, hqp]
  | cons hd rest ih =>
    obtain ⟨r, v⟩ := hd
    by_cases hr : r = p
    · subst hr
      simp [storeEntry, List.lookup, hqp]
    · by_cases hrq : q = r <;> simp [storeEntry, hr, List.lookup, ih, hrq]

theorem lookup_foldl_store_of_absent (entries : List (Nat × UdfInstanceMetadata))
    (t : List (Nat × UdfInstanceMetadata)) (p : Nat)
    (h : ∀ e ∈ entries, e.1 ≠ p) :
    (entries.foldl (fun t e => storeEntry t e.1 e.2) t).lookup p = t.lookup p := by
  induction entries generalizing t with
  | nil => rfl
  | cons e0 rest ih =>
    simp only [List.foldl_cons]
    rw [ih _ fun e he => h e (List.mem_cons_of_mem e0 he),
      lookup_storeEntry_ne _ _ _ _ fun hq => h e0 (List.mem_cons_self e0 rest) hq.symm]

theorem lookup_foldl_store_of_mem (entries : List (Nat × UdfInstanceMetadata))
    (t : List (Nat × UdfInstanceMetadata))
    (hnodup : entries.Pairwise (fun a b => a.1 ≠ b.1)) :
    ∀ e ∈ entries, (entries.foldl (fun t e => storeEntry t e.1 e.2) t).lookup e.1 = some e.2 := by
  induction entries generalizing t with
  | nil => intro e he; simp at he
  | cons e0 rest ih =>
    intro e he
    rcases List.mem_cons.mp he with rfl | hmem
    · simp only [List.foldl_cons]
      rw [lookup_foldl_store_of_absent _ _ _
        fun f hf => ((List.pairwise_cons.mp hnodup).1 f hf).symm]
      exact lookup_storeEntry_self t e.1 e.2
    · exact ih _ (List.pairwise_cons.mp hnodup).2 e hmem

/-! ## Claim theorem: worker-count on load -/

/-- C4: a load request with `n_workers = n ≥ 1` spawns exactly `n`
workers — `n - 1` in the loop followed by one final worker — each
carrying the request's code token and binary path, and each recorded in
the `pid_to_udf` table under its pid. -/
theorem load_request_spawns_n (codeToken binaryPath : String) (n : Nat)
    (fresh : Nat → Nat × String) (table : List (Nat × UdfInstanceMetadata))
    (hn : 1 ≤ n)
    (hfresh : ∀ i j, i < n → j < n → (fresh i).1 = (fresh j).1 → i = j) :
    (loadSpawnEntries codeToken binaryPath n fresh).length = n
    ∧ (∀ e ∈ loadSpawnEntries codeToken binaryPath n fresh,
        e.2.code_token = codeToken ∧ e.2.binary_path = binaryPath)
    ∧ ∀ i, i < n →
        (loadRequestTable codeToken binaryPath n fresh table).lookup (fresh i).1 =
          some ⟨(fresh i).2, codeToken, binaryPath⟩ := by
  have hrange : loadSpawnEntries codeToken binaryPath n fresh =
      (List.range n).map (fun i => ((fresh i).1, ⟨(fresh i).2, codeToken, binaryPath⟩)) := by
    unfold loadSpawnEntries
    have h1 : n - 1 + 1 = n := by omega
    rw [← h1, List.range_succ, List.map_append, h1]
    rfl
  have hnodup : (loadSpawnEntries codeToken binaryPath n fresh).Pairwise
      (fun a b => a.1 ≠ b.1) := by
    rw [hrange]
    refine List.Pairwise.map _ (fun a b h => h) ?_
    refine ((List.pairwise_lt_range n).imp_of_mem ?_)
    intro a b ha hb hlt heq
    have := hfresh a b (List.mem_range.mp ha) (List.mem_range.mp hb) heq
    omega
  refine ⟨?_, ?_, ?_⟩
  · rw [hrange, List.length_map, List.length_range]
  · intro e he
    rw [hrange] at he
    obtain ⟨i, -, rfl⟩ := List.mem_map.mp he
    exact ⟨rfl, rfl⟩
  · intro i hi
    have hmem : ((fresh i).1, (⟨(fresh i).2, codeToken, binaryPath⟩ : UdfInstanceMetadata)) ∈
        loadSpawnEntries codeToken binaryPath n fresh := by
      rw [hrange]
      exact List.mem_map.mpr ⟨i, List.mem_range.mpr hi, rfl⟩
    exact lookup_foldl_store_of_mem _ table hnodup _ hmem

theorem load_request_spawns_n_witness :
    (loadSpawnEntries "tok" "/bin/u" 2 (fun i => (i, "dir"))).length = 2 :=
  (load_request_spawns_n "tok" "/bin/u" 2 (fun i => (i, "dir")) []
    (by decide) (fun _ _ _ _ h => h)).1

/-! ## Artifact store (binary write + permissions)

`main` writes `request.binary_content()` with an `ofstream` to
`progdir / uuid` and then calls `std::filesystem::permissions` with
`owner_exec | owner_read` (replace semantics). -/

/-- One file of the modelled filesystem with its owner permission bits. -/
structure FileEntry where
  path : String
  content : List Nat
  ownerRead : Bool
  ownerWrite : Bool
  ownerExec : Bool
deriving DecidableEq, Repr

/-- `std::ofstream(path, std::ios::binary)` + `write`: creates or
truncates the file with default owner read/write permissions. -/
def ofstreamWrite (fs : List FileEntry) (path : String) (content : List Nat) :
    List FileEntry :=
  ⟨path, content, true, true, false⟩ :: fs.filter (fun e => e.path != path)

/-- `std::filesystem::permissions(path, perms)` with the default replace
semantics: the file's permission bits become exactly the given ones. -/
def setPermissions (fs : List FileEntry) (path : String) (r w x : Bool) : List FileEntry :=
  fs.map fun e =>
    if e.path = path then { e with ownerRead := r, ownerWrite := w, ownerExec := x } else e

/-- The artifact-store step of `main`'s load loop: write the binary
content to `progdir / uuid`, then set owner-read and owner-exec. -/
def storeBinary (fs : List FileEntry) (progdir uuid : String) (content : List Nat) :
    List FileEntry :=
  setPermissions (ofstreamWrite fs (progdir ++ "/" ++ uuid) content)
    (progdir ++ "/" ++ uuid) true false true

/-- C8: for every load request, the binary content lands in a fresh file
under the per-process artifact directory with permissions exactly
owner-read and owner-execute, and every other file is untouched. -/
theorem store_binary_fresh_rx (fs : List FileEntry) (progdir uuid : String)
    (content : List Nat)
    (hfresh : ∀ e ∈ fs, e.path ≠ progdir ++ "/" ++ uuid) :
    storeBinary fs progdir uuid content =
      ⟨progdir ++ "/" ++ uuid, content, true, false, true⟩ :: fs := by
  unfold storeBinary ofstreamWrite setPermissions
  rw [List.filter_eq_self.mpr (fun e he => by simpa using hfresh e he)]
  simp only [List.map_cons, if_pos rfl]
  refine congrArg₂ _ rfl ?_
  rw [List.map_congr_left (fun e he => if_neg (hfresh e he))]
  exact List.map_id' fs

theorem store_binary_fresh_rx_witness :
    storeBinary [⟨"/tmp/pd/old", [1], true, false, true⟩] "/tmp/pd" "u1" [7, 8] =
      ⟨"/tmp/pd/u1", [7, 8], true, false, true⟩ ::
        [⟨"/tmp/pd/old", [1], true, false, true⟩] :=
  store_binary_fresh_rx [⟨"/tmp/pd/old", [1], true, false, true⟩] "/tmp/pd" "u1" [7, 8]
    (by decide)

/-! ## The sample UDF prime sieve (`RunPrimeSieve`)

`RunPrimeSieve` builds a boolean array of size `kPrimeCount + 1`, clears
entries 0 and 1, runs the classic sieve of Eratosthenes (outer loop while
`i <= sqrt(kPrimeCount)`, inner loop marking `j = i*i, i*i + i, ...`), and
then appends every index whose entry is still true to the response's
`prime_number` list in increasing index order.

The boolean array is embedded as a natural-number bitmask whose bit `n` is
set exactly when `primes[n]` has been set to `false` (so the mask starts
as `3`, bits 0 and 1).  The loops are fuel-indexed structural recursions;
the fuel bounds are generous enough never to bite. -/

def kPrimeCount : Nat := 100000

/-- The inner marking loop `for (j = i*i; j <= kPrimeCount; j += i)
primes[j] = false`, on the composite bitmask. -/
def markFrom (i : Nat) : Nat → Nat → Nat → Nat
  | 0, _, mask => mask
  | fuel + 1, j, mask =>
    if j ≤ kPrimeCount then markFrom i fuel (j + i) (mask ||| (1 <<< j)) else mask

/-- The outer sieve loop `for (i = 2; i <= sqrt(kPrimeCount); i++)`. -/
def sieveOuter : Nat → Nat → Nat → Nat
  | 0, _, mask => mask
  | fuel + 1, i, mask =>
    if i ≤ Nat.sqrt kPrimeCount then
      sieveOuter fuel (i + 1)
        (if (mask >>> i) % 2 = 0 then markFrom i (kPrimeCount + 1) (i * i) mask else mask)
    else mask

/-- The composite bitmask after the whole sieve has run (entries 0 and 1
are pre-cleared, hence the initial mask `3`). -/
def sieveMask : Nat := sieveOuter (kPrimeCount + 1) 2 3

/-- The collection loop `for (i = 2; i <= kPrimeCount; i++) if (primes[i])
add_prime_number(i)`: appends each surviving index to the response. -/
def collectPrimes (mask : Nat) : Nat → Nat → List Nat → List Nat
  | 0, _, acc => acc
  | fuel + 1, i, acc =>
    if i ≤ kPrimeCount then
      collectPrimes mask fuel (i + 1)
        (if (mask >>> i) % 2 = 0 then acc ++ [i] else acc)
    else acc

/-- The `prime_number` list of the response produced by `RunPrimeSieve`. -/
def primeList : List Nat := collectPrimes sieveMask (kPrimeCount + 1) 2 []

/-! ### A kernel-evaluable form of the sieve

The marking loop for stride `i` starting at `j` sets a periodic stripe of
bits; the stripe with `c` teeth is the geometric sum
`1 + 2^i + ... + 2^(i*(c-1)) = (2^(i*c) - 1) / (2^i - 1)`, which the
kernel computes in a handful of big-integer operations.  `sieveOuterFast`
is the outer loop with the inner loop replaced by that closed form (and
`Nat.sqrt kPrimeCount` replaced by its value 316), proved equal to
`sieveOuter` below. -/

/-- The bit stripe `1 ||| (1 <<< i) ||| ... ||| (1 <<< (i*(c-1)))`,
defined by the same recursion the marking loop performs. -/
def stripeBits (i : Nat) : Nat → Nat
  | 0 => 0
  | c + 1 => 1 ||| (stripeBits i c <<< i)

/-- Closed form of `stripeBits` as a geometric sum. -/
def stripeClosed (i c : Nat) : Nat := (2 ^ (i * c) - 1) / (2 ^ i - 1)

/-- Number of iterations the marking loop performs from start `j`. -/
def markCount (i j : Nat) : Nat :=
  if j ≤ kPrimeCount then (kPrimeCount - j) / i + 1 else 0

/-- The outer sieve loop with the inner loop in closed form. -/
def sieveOuterFast : Nat → Nat → Nat → Nat
  | 0, _, m => m
  | f + 1, i, m =>
    if i ≤ 316 then
      sieveOuterFast f (i + 1)
        (if (m >>> i) % 2 = 0 then
          m ||| (stripeClosed i ((kPrimeCount - i * i) / i + 1) <<< (i * i))
         else m)
    else m

/-- The sieve mask as an explicit numeral (bit `n` set iff `n` is 0, 1 or
composite), proved equal to `sieveMask` below. -/
def sieveMaskLit : Nat := 19955652142125170393639081415654914830987826685817904333148227398435708226185422435404148180808884622579307886062498530360822778735443788949768011622464849275613347013284920817442913840570634889339211163942743759342322618224062916031676470110121662541030462069255480193030839122677575259171330290872797341177724071171156020021975184115586311707664427884531778583854968668935580488892312087369157390669323040065276981991584379380158394903555122392714860120063774513385614613515348209364793186398542483737704371769528036007128428342834532209732954814567092759758423704051727933031209063910461825063409965307438923689547080350109506251929672850411167404584997188532112752303641472821921756456747451123508641343535157496276724923216524234162906061324747256370919544778585258859475337210076869043108854856539054879801004014746708216336884992350370074091246873717678946520355191531606040352872315245747503032397467938742532862582349422536824393386170787300755800050958067277424311948343888424583935819579703477209295990904613505137830037037509685051435001605490998674868752121473888653068394000480578275646303008115891011290367737385124029238912479863280688679671425114713970442545329221665289705052096727595782387129104906724375243587657145712510947677158817742571999761176338610062632395220177151491199051983156395101551849833501687762918326555001289516643633353360270737545667217267974713878479881898649751349822647328439838423178057860097087507411728879672414851098579915079446115551928243200281791398363407535647660950463110636458318416456193198032751615531986937879335198258976851823500789264888111982734822736199027012561053918804469606880114512790028474592053744118405904060858764679607016968129897858942384045032664799275275611575058027847096459826071718175219282960853220272813625290436639456612955508684516917907217873252415780117561805932990703117362101276300746728843492950658837879114726123948119926238063437894216292376342063255165980362314368058450408768793414662513050686219527970692116391214239774157864017017311830911983525527932037631197010986176987065096839397416966767479679983091720074392455243782798344811852457900429763793109352042951845032915752439499517610959811237750115111552874562234436357315198733056859968047475429817580117249305696708034831744296511262667989082710475240952341598672397098561498005336136164722077388815872692132347307230511490623393272892090585866526312016243456280323792059331474274366326349847043041315354083188367319292887161791898722114565434756593058060483253794803537232903120309592690570134462600501884032380498378693467840156247045645812198120740138480044779710125864093054922002989805611903996960846721590594399290319431046885698804915610989025133265812645567138560949676000575240567704928260710578708174838633854249163368855447354653121484480529363104682303022090649132746054062480836721011076818443613398354321647585031455248453931557079308742756639498204046817792433148473451591847770496567851469713944859126108581100431984131213159874527033934002806988763391661493257987846122799198186218407320762143214162553068590995852963718202980331741441481159205580750680033187511911702613559473991486092580705832283906938072180828596500530016782356977876616711584755358833519207233727359681586452292645505837560158338158256789971024177323320070708585899103990918547716768366022961274653213959730338951006779147869813907106840745419222513151323031350087405795512760138130602269467109579877558852895392453921727806690585020398836472523707998513508320926282266189081066388435748374724920764608191337366777778763664881430847068694608878011127329571393831319284134391542350417097648594529863535085785985664290584911958947172553798780626921539362989264585097916435429003575809654590848109065507691586998544955061482048576633568119254496350523116561532227778389756581770973884798566479266839656885336321150393367535728302458465104728505146150763454326896383316709427715592733729159829129370720493942996474999067864279917648908615283692815456605927948238607528182714005842777066180012456131723403804812300462123435122234187656768746229279099383378697036288366770771576909676342088994573063491004917129911157031173405044464915794986588453973696380294148097513821980972629523859698796572945008955662962562516376544657702901777843755267787840226793783818692413945017878401882271859475869134009791050119145802937667902971850381657542146962111782214232832918977185807400667174335671460160431075976106603136240231680462096307162040470937425547247083259867043919538484888829500173748329476952495776411993099267371884565160109520626272824434099429030478803096353105237672110829378321240105445124128054447414403613998109144542213532038171336342983682576239433616848767802375624788357677814574493867921618324434488066751032462279929307893650292884139404299345397975522990690807101291736652831387421373484446240205404321583046955388241531563030864914480876941629651577816382584051337714388512672315162607937355118762341026498835944040184505323153690749075674144945717676027896107881401424604638406816787243842122051962895501816231031314916488790774232599966317048148830760628341174129839506166693764260278338262541386427158014729864169906327942675493951618337648977126226130969494533593251091135367449599196858867110938881292845046914691934145437482448376221822408735350561834447131206018854420610008306552485266747436719522454023464318605105391116226627911668272520600731945381863953893820635438425444951555137989108753438730246878087495434551753584709079554176277131633994492324420519690544248675179352791520228275774756462602000419699865981265469481413133814118185008427007232671122668742023037284324576131174198831842776694117283967640011689006947770143378598087865148007795361149048745324980703439721636073224034482539949614362577585217513701588198458766808508407134281848842911416239893527315639698885938863007414193009819878125121575749115436251414252751355072281850937006135754795139009250069885672092661593194833961608472176433350997297264373265479270838380874814820307152400926085165607444955171841286915716408894741323880094486231466188107563686077044249839976135018975421454829035390152894618127141857027400667788436159043067508991703503785531869661913046717107358042147439238916658515045641181948203586521624815019214550359383394172881349901973135128336767896370567121820091169769711677893264167892433852856743829039487600995589966694017858878264130819172405490775191683803671784812199813099782956529523013884007507754694270898337533112287183905280743298188459262738375221977258849176262264455561379869957705340399132331131901802776130831634228673563105170409285257306681377227553017256482341385800036083398307923198807660635101453924087503169125244053714349091444281460536378931675586479792484888604776200125003250728771354825010503017880708821580623746797268782339597327722286482174611995106576760307100983910524670128740316468874168677740607619167172064781084842678682561371022249299236498589483982291997036420156800249054916173412853016392810136287865736554674433994037195606268133416127729024773643384942368237326375251270820098188703955564559552397640748055031455646150280151967741646497960839023543957213218154425124083848144974411194673657400535930377240689099935058511836681413615054647897794272382707834993770555684775481578007037039739532229706560681120428197991208558116746550402613405731337507734858275941825559640028950481103364303932762528798366606653992604541402421960532884660038635067562308474559812174120651590678170663018900369063164732457150474569425893295307790184975390741919372809242845118845560730877094084365352022127688940444353922877970123756255679199203419065417944283745820522496960681598997891033366957077156974260513058194017744497849173193541829995143802636202809168061789891589326285553984095185351312096067723128724258893408628372373730685260409669828223463889744829875439187504287484439807965376481196475176780830016798071192221496956005394341367911107172791381773439817397537439607579961925255331366520535198899504287256973588675882374576333100403276546024754250763323028832326566595999707163215121990451596934261347300769971527262453018944819179714587029412765124409681517045774596308056800633465164606681465583001902232710208900671482955464289384656274651175566152459415873173602854961822243621565993723376484306338692812094341452002750586914421439738653259726932927643244480747182806159288650372327221915735814666533502734221086707492273362859625712151986982690988166929308967505328376827335284426340911082731165855715084071344945803801905805177242786437740898530213317281703373576328863555577008250061905160200313149258155548787362547038290964297752594476463830986334922837807162700214971076768232079696589289095747615609594759805090398965904642312894045501364128584881960765403945967070434049900283780132069097456955175993598002558650905063804303522418051140521357807619590238109774911870888694282121217496346697857683278423362151327029885297618820281339289252321122468082755812993602553606416419314363614683339396807621099286841736976298981538385657949226729506003896727343916194761415385625096603725211240608329983943804535292019983332029531033169084327423602037542722742268008187171760843413815202398437079656793493849094786237006182238501024529357749831952529311953067578339934767782561384923254950624500630359109739685853911735331636574929608885141087663851637252699433018837635105675423311050548072304292863466843776360607233670664081105316518709197996985626718560513949996007874059826768578866255266383383151171276875711811660730576320320194767769147063819155128050913172205796403377685499663880578837181357506605087501805875003349737478611996163077758496435097826130497108112030230558395413827862300694524829194131524168395579934201734876280911797219951828381074577116063824571341573033989145807576711724290800220332890922134038929919454406065872836520309409639756299961370838877523620515591695422621223237836584183415008815253899317971834428095650252363400739959173795113174200244837305459742853201536287960585855133273069921325586918922222937309772713157505655238741893153691589821263772053275673786342794931113094421638684650732166350484178527662153139991115640657965341472908996833461887492375442065830477262787723228231455014189422367133159749867061802864437395886816452492235387823194770452257913141325493395215454207475691176180829483582361929151848139762344824505888099089995880888986456883640473754533698120854328386087418162404785627070557272392044543384627534771433571131550266597486643294086447375858535151731025850930596105845282796977597702596882037403521855777880645168047744607181460190895500784322700349799584837548330691502608003329750038295509883135674632517215618498171353674368561989759039275004655149049176929837990765047580323331704484389878925833989675846068897495021605895646610552263356409206977037816060654667741811571626197070012458347781222281326852410996702471371142416980380979975693006396206357379724195459574373219729787204121250634963396213825563779119159940569614381159803314163244060904121016893558692975400070941257513383373069582075833859305388771431206364781432817896446899610201556802365598093665880695311950967084837942155052554108285000611521736143706828679276892664182136649788281475399714918864156666406580821805052274393499700869136957984961096136910046945593426321966266946964932233291316122695389078596393717892797532865615288170815733205780994053727832333392090489926147511224811443076029875156808117057915074229260127296033984619508345442734398871417781355490835107556136568242030388171870101173294323753576698884386799506355659986296881036777797455491201320295430128427727206586435677429502052480988367690330452192698921376422066442708352242215690261261732482775425737850748044329380498879812845252509544301049800754127236776686352022113134037101675239673893904330441649122280457828759357974243685008458263178373427485088425322826503645785206999850908997486392944325929379399429244535376340744647460221132147891440332401813205360941111363192020337405806828903080701686414230960346678840029747813964329113727464872956090826847306678921819958199274925106632897246230067115110980198971830790341659779737385200633921472773445760418880348838978490046898829314696874308925500867478075904492957687019413390483054331775539508024576858952617431816897931284447899353656328492941881900612993000516552978716545008772892139782279249817569301051910422064460256146814195418150402817933092594919719527907529863710502145646406793047578447708925814618967981493968967732327654976604656081113906052227148288369964241105437593907315131903473689855438192192963980051814876241252226016276409268237909497102292168205048827716012635740115909232582500684015211444561481972288931029625813266302096806936030586970451223383880520450063825427538677378973956346586217541528592952934070377440064910589796275744288388169311782144152174750681585082545043053290850284501958114197279055840114112114514007406436314624175318692717692042927505718630197485599349118916783244516721174558564173520299471625177834928138707749378540358729846763130163966447575983037699943001865311294380372822393444877609086477370126168871400239389028248286172805205241639090886999307635675954324839011670055377458591120482536689543016193240040669108762627654244700763725701299639422544981237004261506220853787888879681243856629799278552723542823337628210734673133831946275197630201028100794477307946444932759002374963359031480832712635250624335997436508857212163832959156945284860431109614373831665191628404362523691257159978773538069176462564299094977402828900913759671393848568871503752012032218458528279166052229575850520701243190821504504146633587829805288296660405475222856540600662633168232938906473273654121138648935921768730664125437508191134570189391750196790246250315066032191176092490914402097282662275068441108415799266122611167693420544663273881747578745661327828122227362974907474386523454423154993608574531983915662210164167289617148516233505675834523265331278819600645115195695348059487443493816700805162738083308666297444601358641921445382658884140918351159045912305838955485330969437884060955316597856184070813890829966229979029374062868905755275608547603508567272452132470764018266407970371620528935947642640644200408346045669285805983873864465240623412899327000442412275097622401964651993222762832556631618335140522478878971155956444158069086247319372461812587842365921859050924402158021613440407981040043974349896835479434051351068637241347320396135204481563113629204647853314186217418760246683709207929956773280191588972590617645330271775682538467247542938912595567487906544425897836096713331156300934185458549323355933113956952745177677980398816213198777177870642357004759095498079799046071771053542531305163920020249910063255049508557531365494314314291955235032243252861125635416557989870450808967006484032929070773445369298362767963261331565629890189550790650056615638660880219482947030946530965057273511815965600784878033175486214628398028545795093611771227921607147571602483889254719405096129464375085086773182701770930373734932071301145134634913420446013058846396917294097204725563929195717117463277872178730801463030817678014623314215205968132049533086525018108474196466353667323284166886013781233921893766230066408629101043988509264402165430510760792747311999033762463032848193019370284806398418065615364472358478491664155257602709600681463099073965393960690259474019252485641798517661197337381924053820382405678507047316076159228745153315087094275960332360828401046310290690883743761924101027430177830713088375607847870572436110020708976454772996102231101337751149715797644446343741709503348578312707658271321673915465779124296428397825807102889816191512481952995168825821727042673236764200080892993910377747495500918216638222927461313554635932925069345133715195988732356163214320285633234057142616599960830841274639347310253517055759695485650499731885381808062622377023778356823619533334589835002249637193741478280777601688724708217437010632716907688093290747285277616835461514838958656401032331716498871119177940608618093549462203563322173207508201824111656897712565554923347044739349736172404530607915956989618291666807959807807855030132868345602509165242425148606716043887831775583271417805552683917384145969472161769594111437106811555059308063906366810867346170109493135798962051792128061864360862824101003609804280835978163566744976050269254974130097590505112049094521805920209470367801458807271118699929807722354724731378992394321511918882977108987325172938160124683275438362976133163054937550783017884008270907704760181881223885821293918385493641053207320874649367254408236215393499456302989199356036117137690307095943090162492695369299001595458363691813396855136723491548461220755552600282227712828893906260029528805300661267314190381602315920027471051324805284441676087567180193583208073392586689932604178058704809997250225300902248656668130454121596553799534135021066994638819496304305683831014179675930607488363411740731215930017104029513369550018708788333679096382814602209706614674672868804100436637743271326710761382213453475138238125069065344275044301751015820729819916824963294503064612487914801448973681335698588480015746019382028949252736038053584045956452660012415331607865203571178730793137864356203799395976966628792136483276258757953406271988451579322633436376696353083178892392306328375010186188989377727331824503290518505347105618687166435682653331689364428958312025208035345055262460612780663844399130657898553681513958043619000516737680008245252582890738115407014325673914191009424540601634018295580734211208060314497828020415693041660644456981991977876064715612534589705643836962563801606166407135240396442951545862347977650669432168045451065492337622850845220048276900929385000180335834929817322964263390000268789878599249174363993921512077133058338995260984486545015057803636612498174335590783666948723900253599439016411853887811068357489132331687563284637661346758341132371551638820552480769697178197227518129059945599239960050960519853359678374913292309020630843720596249985526734601914248709472744117645145411967418710549403948999201201589656478660698134393880866358875055881241713524685156185773798622175681294811157659950050843100299218827404952633312876559792700658299228783763176993042143257552190750859723287743224168538080132715125815278602665495319861196434005367920849666344329940569035010294856629395001288546713993631455447141357471184746491779660461922420146035114431685719826210110393387888276300643577367679908004465479867652633716784250250501177703640428939892804233774372566125425965847052330309475285012285128252524748906150998260879364316013965717974685334491858679121640038020841612214253396391785912027458031004120763210099038412975461409771481034514182872904876683436372237855772383946624130651820343040652490632964297730803828763856304227590754737720607719187363248876497416787010400266420942202122326015101832550163803977779945135789087489217829857412781174634525317918644533060607672926394714791268023812604692749230809755106278298120730352521084935128024901877549630793603697096894587442840759288557407527605046262845437594967776166837305115336604365216925713342356402588023854699498916727051968733921088020618238893448685528725711332273858925429830800631223379940767604046353847816990805337193066841006753824672930483200320015063147314669741047538144904551960769091003953343644978983040905791305526549504740991438936488089918887243251887391088309346588075713925536635982413813370427355762018570718324239222049204329557261431554524602496279340803391782003139733978897359543024459211165132424355782914707024573381754290291484223167880954565523160921246906298891779033717441498811914273597712103757987462988104462143304666200390067164588544862133624673207182797529377393783465562563561153166794362149450303736529192833786025146647521168996335358165491312589278630467989430935740132166708066170712077807664149103625362825692342317909568310185023218144489185271087794682434524598010744938748674843923534129700394986997079996159891469780478949505887082061644764997906159078053761991703829927836373671722382872070871357656626868826196243333345489702138170125576781208628506732213626969685168950515955931544682220914963617250026301193150710945515839321608644048119638542976689935690062889556578834600688627472094690439067167127897480467241693200103804438429530343970057780211712099177582324733913654733469687775488044741734143891628545549402049208169372262261429818079685526365565537127478604169701864705071013474661161889160116383200043465730568097749096025085415536159539806035406416133731509090873208933482575566887588255757135541834780433758887938361367541171525564857823054076846578148813902018651701059448941806621840220202391813444168996208263838893791929672711899435229119897793609059674241981837651263054663658425243020511359639418345885891890548631011713461369557397276063596383639632041044315177834258503664913917348900683119174681039123836216265412624421054300017199581797738123774983769335802081460470357743297270090663888533630964957804315573784841776155003655900573343689515745365798463330960226833288064194499234646358824952667998801801741421075590625535281129055417463787416602851439741526579064279818946894154834744641924076971565775927559610787001044447103977777848127891919987820856652840196819289631474429025583466235616702660453930026419322229476443871919019740416149232603727447980577557951428864675788691108384417810066014939744420991881427051034862048807704242966511718396383866413686400268017458068662670163212463221419241366517001269330147670690257874012836889855951867421036928365799997083628517824022438258913163278697411093745662792550280811991449746708270874801868805880979085362191124927002431733578546590013682328713758869916983415980397100102154235670046678189376778653103765599159263656337419441461879586948343955379035425559426114755994264791166901827520984209030617039436666282190738091392222383080088296707250975368410255775395878895361808590052012476601625452114327294692910273804882054141229905186045489496335470315140336093724669904981582236736623676296505298645691507036293139538407983060899915097943777916101579257120408319490303770058309159087692482807900056918993970544034501162020181800012744186739229024772693995976769628300597478531617181826006877732471479485930666378735158597846773848333443176745189808578435911956680488147538412956658426821435059908948561159057028174574383623672545280791307268118868682262215691500552881896652543898200390590004728557740744754245099856422991419359388154378558608313088016153201335969003183776174288925926730120660397123222960745440157371962564931872656416221677385623719655228428876576899806600369641718936672402973169439103066179675796741376169242738068047791512414019783059007755309801504807517045818337267009350732442745021443181378704354887209154841393761632435646667713753083159788704374692012932108338086433143084134876602213157721258288262846768819695767577172215210646893382885398275265595799841451383260874534481339589802665666101919726784258205137220242330410811128522852565130043723485041749906952066847990374628551688677067827286284591603959171464839948495904578664925602963781751206730525942106921115598923485594329678651758444072231743860615517952152248309693113674707622881565111329212718640773459044027282999242198510217236714303951681250226900940411208792668426405224701575622724854091638046234155107531426371898829162868269762865142600269780354944467674387142693911045830000448067066214848902802877660078411321908764367777098630510920515811199867930286495171702980032320650044028268090153710428150856662451775261356644022090645657167516298835761937093261472013838124271413289030507216619998039439703724646341027989454470382129011407461098005913475930969521465248760038004975805246238387477189957513638636792901032764257544619086346036779242870007499545864038710919470897696747345093310185280092982088777109959670118174065366046802505110012482564427552163158429858398515793817605865161532403950736066130848422523958896403598859141604269789537066689689738364725006331699207273801575820299323131911842246737866081775759308427954624771951686447630182458674010460816818417740957597249538146673568197035268384903144087111260682020479317774236843810694628400010536907172171264943776675046124187580316390292413972158472471506269828342646981021515617812344858450050268761645573140322119642597703312773189859851224243660621246091102047401643624551760299745847983770670152107955992634985108586587712536056262440540602601240425606895026332408434384813196846899802876111585498558159304258483943317383345645447688664970215978799387087580392261010991919925273093827434254345929168403396782604503431232362722495320058705305122101303577546925339350742299483227402042311479889400497674540383361217974375068989957900107799707164259712552626619556642271499736682372948081903608689869060680102749544739059581387656075749709289300881528789284423643469187708762552963216005326294533210884381137087443223715456877038888358238651196262601592662703302740613991784631427962437319599727681670013430686682344663536859799001560254694289769045149815772913589805382684726958948215424778727147721427192674647413157117960389170688307536351233009591782814889776607578795337002506143024076962213976174650440578536519273939629111241615673139789666862612779573752561552928391851249241798439079367482529584936818234663130609235784828088341304001237568134759739969403472470256541992585382786311029145285192049360086271145870005290893055376278016626127254688930633081359106345114277223048379361841197113616435010546711162285890037351513864721324851231280743575341715144366177011652626885635612019578247816775027378205131309328794762838179642359017373723955579514059523857397708665856042602324277302698492805070512756855649022484041083662006187592894331760256833227992016403198865695804309929654273100364224063598307223902601062587129329471346293254913694908989919821854104421990406529750341583767453404745508396385051286781241489925576779352922301912978270537611756516344745365507074846834414540124413658915452748852839639370681173491540765510001530226179487981654771742621070507765523779711971200009678386711961963354852403370205550795788258236282058607850055543333480456373784892796451385319895696818597922565266680603304284633888482044826039625861654274709225794739782817740274040180303383029941129846544070623849218327454175234597237487123147780621966016852011602375489487044965788136105547030718323620995772512257932075634516550897118162155683523772324490026126147255784882582685566086062156465282951569334857481257289111122459492746761406510539824153219019871624741441171999190230922577135831921271036521646575155496849473263658916729850599930657277790756130930581834174370817131370308985732982753122209614469958700724500223663484448308576646410520369787168979913215966423038279841215836009580067060028143142552912527463339864267032120939798658351125829616801782252245651412044399073813783182519023052313355301175537292943486613229654152066732310093350989096392641785934159808212301768953958408019794933936855486314883242257978512993791784013572851656239334614098316239519631552159039842728006403772596835474393055358416212621144958782324045114367830063395873991634302703339309998696880303621888310993935087939348796397909635706905227353286700087662485994156915307916759838206932944916977942468522850654612926399589069185043809865592375268950601223688195584316948327688122709973750083096538144164216757173101814840101642002714698303796845874346733795937111569613016893430785446807336484252514105560079036529072441935516283849073047747846058560176411345788152296029377667967039441700096031344151609750213709508220980848537432808939336322118477623139838197479426567983796209013610809830408583138345215377485515790765709513872073697192746816395098270093609701642639875929003072562665188543223802783681619897678141162448725959192348429458888874911561545747553776717917345938566227437141929464104348064389559823210078391005540833690838107376289610393562205952211187664030144919087088858864989769047619974358292041002801723133585127132064925777209168005112084234321704706876210284438085980325339263872251490400489957026507419743715769473075484868097519186401620185407797771654541932489389144753759336120343415776590929956078585787627544854431625491745525742334593959908670496814500329256690542132566322707170601867962844531955011073695782307943683298897696300620412342462709951893082444699464671185316020618166524251435408756293792881075678090069314531321288619315150647382189924969170191218088045374563060858701517430505275867524493745748115568675960047301149205861581929265730427414199266857245679249497205755334227808463834297025143922955757827908015655177627934201914658408472365053932635251824957811092640277163237699487529814962416930574051093884011900256829441081777293591563989624545874891397435892822145947271807660002806378574120359985136115731744710558153816002654458639805952263305756599462308107537276949144959359122372069069794739604456144492073874968658696799991353618012203694859745291004949924111940224403203428455742644724456014472364344955494554417265934228098617159332588156860068879660670103369336680651643423373002287200845068161182952465516204441420410899048979198057215733175026501423852524222641751347245139478916863344190503832936664852648487157899497776682981714500179885718017999098188411986813824373671306816872625077676678032289249610432375195190738056018686062254346687783751510132684878018076738539762495789308892843180562388530812965770624660422484952880968267880790987606985117026529794391386332867114870793047702932538919684217737887969798353553735377745742964993669920238849366184245965435669147913268259616605795514538044566038380659635801524256758913563569066452874776833162661607643231921631506028518239126868991637967138272685719106712832473161196867142663841005350799801627707902113032844816364000130447737282652635188136056730352686758944697926864526258775480675151994051686052163677232623544014689990990239127416713454017395799182733442551086658970640445683825648058605757144411834067694185031614049796000521073901166823679494130782033747

/-- Bit-count of the low `fuel` bits, one bit at a time. -/
def popcountLin : Nat → Nat → Nat
  | 0, _ => 0
  | b + 1, n => n % 2 + popcountLin b (n / 2)

/-- Bit-count of the low `2 ^ l` bits by halving, so that the kernel can
evaluate it on a 100001-bit mask with logarithmic recursion depth. -/
def pcountAux : Nat → Nat → Nat
  | 0, n => n % 2
  | l + 1, n => pcountAux l (n % 2 ^ 2 ^ l) + pcountAux l (n >>> 2 ^ l)

/-! ### Bitwise facts for the stripe closed form -/

theorem lor_even_add_one (y : Nat) (h : y % 2 = 0) : 1 ||| y = y + 1 := by
  apply Nat.eq_of_testBit_eq
  intro i
  rw [Nat.testBit_lor]
  cases i with
  | zero =>
    have h1 : (y + 1) % 2 = 1 := by omega
    simp [Nat.testBit_zero, h, h1]
  | succ n =>
    have h2 : (y + 1) / 2 = y / 2 := by omega
    simp [Nat.testBit_succ, h2, Nat.zero_testBit]

theorem lor_shiftLeft (a b n : Nat) : (a ||| b) <<< n = (a <<< n) ||| (b <<< n) := by
  apply Nat.eq_of_testBit_eq
  intro i
  simp [Nat.testBit_shiftLeft, Nat.testBit_lor, Bool.and_or_distrib_left]

theorem shiftLeft_even (s i : Nat) (hi : 1 ≤ i) : (s <<< i) % 2 = 0 := by
  rw [Nat.shiftLeft_eq, Nat.mul_mod]
  have h2 : 2 ^ i % 2 = 0 := by
    rw [Nat.pow_mod]
    simp [Nat.zero_pow (by omega : 0 < i)]
  rw [h2]
  simp

theorem stripeBits_mul (i : Nat) (hi : 1 ≤ i) (c : Nat) :
    stripeBits i c * (2 ^ i - 1) = 2 ^ (i * c) - 1 := by
  induction c with
  | zero => simp [stripeBits]
  | succ c ih =>
    have heven : (stripeBits i c <<< i) % 2 = 0 := shiftLeft_even _ i hi
    have hA : 1 ≤ 2 ^ (i * c) := Nat.one_le_two_pow
    have hB : 1 ≤ 2 ^ i := Nat.one_le_two_pow
    have hAB : 1 ≤ 2 ^ (i * c) * 2 ^ i := Nat.mul_pos hA hB
    show (1 ||| (stripeBits i c <<< i)) * (2 ^ i - 1) = 2 ^ (i * (c + 1)) - 1
    rw [lor_even_add_one _ heven, Nat.shiftLeft_eq, Nat.mul_succ, pow_add]
    zify [hA, hB, hAB] at ih ⊢
    linear_combination ((2 : ℤ) ^ i) * ih

theorem stripeBits_eq_closed (i : Nat) (hi : 1 ≤ i) (c : Nat) :
    stripeBits i c = stripeClosed i c := by
  have h0 : 0 < 2 ^ i - 1 := by
    have : (2 : Nat) ^ 1 ≤ 2 ^ i := Nat.pow_le_pow_right (by omega) hi
    omega
  exact (Nat.div_eq_of_eq_mul_left h0 (stripeBits_mul i hi c).symm).symm

theorem markCount_step (i j : Nat) (hi : 1 ≤ i) (hj : j ≤ kPrimeCount) :
    markCount i j = markCount i (j + i) + 1 := by
  unfold markCount
  rw [if_pos hj]
  by_cases hji : j + i ≤ kPrimeCount
  · rw [if_pos hji]
    have hile : i ≤ kPrimeCount - j := by omega
    rw [Nat.div_eq_sub_div (by omega) hile]
    have : kPrimeCount - j - i = kPrimeCount - (j + i) := by omega
    rw [this]
  · rw [if_neg hji, Nat.div_eq_of_lt (by omega)]

theorem markFrom_stripe (i : Nat) (hi : 1 ≤ i) :
    ∀ fuel j mask, markCount i j ≤ fuel →
      markFrom i fuel j mask = mask ||| (stripeBits i (markCount i j) <<< j) := by
  intro fuel
  induction fuel with
  | zero =>
    intro j mask hc
    have h0 : markCount i j = 0 := by omega
    rw [h0]
    simp [markFrom, stripeBits, Nat.zero_shiftLeft]
  | succ fuel ih =>
    intro j mask hc
    by_cases hj : j ≤ kPrimeCount
    · have hstep := markCount_step i j hi hj
      show (if j ≤ kPrimeCount then markFrom i fuel (j + i) (mask ||| (1 <<< j)) else mask) = _
      rw [if_pos hj, ih (j + i) _ (by omega), hstep]
      show _ = mask ||| ((1 ||| (stripeBits i (markCount i (j + i)) <<< i)) <<< j)
      rw [Nat.lor_assoc, lor_shiftLeft, ← Nat.shiftLeft_add]
      rw [Nat.add_comm i j]
    · have h0 : markCount i j = 0 := by unfold markCount; rw [if_neg hj]
      rw [h0]
      show (if j ≤ kPrimeCount then markFrom i fuel (j + i) (mask ||| (1 <<< j)) else mask) = _
      rw [if_neg hj]
      simp [stripeBits, Nat.zero_shiftLeft]

theorem sqrt_kPrimeCount : Nat.sqrt kPrimeCount = 316 := by
  have h1 : 316 ≤ Nat.sqrt kPrimeCount := Nat.le_sqrt.mpr (by norm_num [kPrimeCount])
  have h2 : Nat.sqrt kPrimeCount < 317 := Nat.sqrt_lt.mpr (by norm_num [kPrimeCount])
  omega

theorem sieveOuter_eq_fast :
    ∀ fuel i m, 2 ≤ i → sieveOuter fuel i m = sieveOuterFast fuel i m := by
  intro fuel
  induction fuel with
  | zero => intro i m _; rfl
  | succ fuel ih =>
    intro i m hi
    show (if i ≤ Nat.sqrt kPrimeCount then _ else m) = (if i ≤ 316 then _ else m)
    rw [sqrt_kPrimeCount]
    by_cases h316 : i ≤ 316
    · rw [if_pos h316, if_pos h316]
      by_cases hbit : (m >>> i) % 2 = 0
      · rw [if_pos hbit, if_pos hbit]
        have hij : i * i ≤ kPrimeCount := by
          have := Nat.mul_le_mul h316 h316
          unfold kPrimeCount
          omega
        have hc : markCount i (i * i) = (kPrimeCount - i * i) / i + 1 := by
          unfold markCount
          rw [if_pos hij]
        have hfc : markCount i (i * i) ≤ kPrimeCount + 1 := by
          rw [hc]
          have := Nat.div_le_self (kPrimeCount - i * i) i
          omega
        rw [markFrom_stripe i (by omega) _ _ _ hfc, hc,
          stripeBits_eq_closed i (by omega)]
        exact ih (i + 1) _ (by omega)
      · rw [if_neg hbit, if_neg hbit]
        exact ih (i + 1) m (by omega)
    · rw [if_neg h316, if_neg h316]

set_option exponentiation.threshold 200000 in
set_option maxRecDepth 200000 in
set_option maxHeartbeats 2000000 in
theorem sieveMask_eq_lit : sieveMask = sieveMaskLit := by
  rw [show sieveMask = sieveOuterFast (kPrimeCount + 1) 2 3 from
    sieveOuter_eq_fast (kPrimeCount + 1) 2 3 (Nat.le_refl 2)]
  decide

/-! ### From the collection loop to filter, count and bit-count -/

theorem collectPrimes_eq_filter (mask : Nat) :
    ∀ fuel i acc, kPrimeCount + 1 ≤ i + fuel →
      collectPrimes mask fuel i acc =
        acc ++ (List.range' i (kPrimeCount + 1 - i)).filter
          (fun n => (mask >>> n) % 2 = 0) := by
  intro fuel
  induction fuel with
  | zero =>
    intro i acc h
    have h0 : kPrimeCount + 1 - i = 0 := by omega
    rw [h0]
    simp [collectPrimes]
  | succ fuel ih =>
    intro i acc h
    show (if i ≤ kPrimeCount then
        collectPrimes mask fuel (i + 1) (if (mask >>> i) % 2 = 0 then acc ++ [i] else acc)
      else acc) = _
    by_cases hi : i ≤ kPrimeCount
    · rw [if_pos hi, ih (i + 1) _ (by omega)]
      have hlen : kPrimeCount + 1 - i = (kPrimeCount + 1 - (i + 1)) + 1 := by omega
      rw [hlen, List.range'_succ, List.filter_cons]
      by_cases hbit : (mask >>> i) % 2 = 0
      · simp [hbit]
      · simp [hbit]
    · rw [if_neg hi]
      have h0 : kPrimeCount + 1 - i = 0 := by omega
      rw [h0]
      simp

theorem primeList_eq_filter :
    primeList = (List.range' 2 (kPrimeCount - 1)).filter
      (fun n => (sieveMaskLit >>> n) % 2 = 0) := by
  unfold primeList
  rw [collectPrimes_eq_filter sieveMask (kPrimeCount + 1) 2 [] (by omega)]
  have h2 : kPrimeCount + 1 - 2 = kPrimeCount - 1 := by omega
  rw [h2]
  simp only [sieveMask_eq_lit, List.nil_append]

theorem popcountLin_zero (b : Nat) : popcountLin b 0 = 0 := by
  induction b with
  | zero => rfl
  | succ b ih => simp [popcountLin, ih]

theorem countP_zero_bits (mask : Nat) :
    ∀ n a, (List.range' a n).countP (fun x => decide ((mask >>> x) % 2 = 0))
        + popcountLin n (mask >>> a) = n := by
  intro n
  induction n with
  | zero => intro a; simp [popcountLin]
  | succ n ih =>
    intro a
    have hIH := ih (a + 1)
    rw [Nat.shiftRight_succ] at hIH
    rw [List.range'_succ, List.countP_cons]
    simp only [popcountLin]
    by_cases hbit : (mask >>> a) % 2 = 0
    · have hb : decide ((mask >>> a) % 2 = 0) = true := by simp [hbit]
      rw [hb, if_pos rfl]
      omega
    · have hb : decide ((mask >>> a) % 2 = 0) = false := by simp [hbit]
      rw [hb]
      simp only [Bool.false_eq_true, if_false]
      omega

theorem popcountLin_stable :
    ∀ b k n, n < 2 ^ b → popcountLin (b + k) n = popcountLin b n := by
  intro b
  induction b with
  | zero =>
    intro k n h
    have h1 : (2 : Nat) ^ 0 = 1 := pow_zero 2
    have h0 : n = 0 := by omega
    subst h0
    rw [popcountLin_zero, popcountLin_zero]
  | succ b ih =>
    intro k n h
    have he : b + 1 + k = (b + k) + 1 := by omega
    rw [he]
    simp only [popcountLin]
    have hpow : (2 : Nat) ^ (b + 1) = 2 ^ b * 2 := pow_succ 2 b
    rw [ih k (n / 2) (by omega)]

theorem popcountLin_split (b : Nat) :
    ∀ a n, popcountLin (a + b) n = popcountLin a (n % 2 ^ a) + popcountLin b (n >>> a) := by
  intro a
  induction a with
  | zero =>
    intro n
    simp [popcountLin, Nat.shiftRight_zero]
  | succ a ih =>
    intro n
    have h1 : a + 1 + b = (a + b) + 1 := by omega
    rw [h1]
    simp only [popcountLin]
    rw [ih (n / 2)]
    have hpow : (2 : Nat) ^ (a + 1) = 2 * 2 ^ a := by rw [pow_succ]; ring
    have e1 : n % 2 ^ (a + 1) % 2 = n % 2 :=
      Nat.mod_mod_of_dvd n (dvd_pow_self 2 (Nat.succ_ne_zero a))
    have e2 : n % 2 ^ (a + 1) / 2 = n / 2 % 2 ^ a := by
      rw [hpow]
      exact Nat.mod_mul_right_div_self n 2 (2 ^ a)
    have e3 : n >>> (a + 1) = (n / 2) >>> a := by
      rw [Nat.shiftRight_eq_div_pow, Nat.shiftRight_eq_div_pow, Nat.div_div_eq_div_mul, ← hpow]
    rw [e1, e2, e3]
    omega

theorem pcountAux_eq : ∀ l n, pcountAux l n = popcountLin (2 ^ l) n := by
  intro l
  induction l with
  | zero => intro n; simp [pcountAux, popcountLin]
  | succ l ih =>
    intro n
    show pcountAux l (n % 2 ^ 2 ^ l) + pcountAux l (n >>> 2 ^ l) = popcountLin (2 ^ (l + 1)) n
    rw [ih, ih]
    have h2 : (2 : Nat) ^ (l + 1) = 2 ^ l + 2 ^ l := by
      rw [pow_succ]
      omega
    rw [h2, popcountLin_split]

/-! ### Claim theorem: prime sieve output -/

set_option exponentiation.threshold 200000 in
set_option maxRecDepth 200000 in
set_option maxHeartbeats 4000000 in
/-- C9: the sample UDF's prime-sieve emits the primes up to 100000 in
increasing order — the response list has 9592 elements, its first element
is 2, its last element is 99991, and the list is strictly increasing. -/
theorem prime_sieve_response :
    primeList.length = 9592 ∧ primeList.head? = some 2
    ∧ primeList.getLast? = some 99991 ∧ List.Sorted (· < ·) primeList := by
  have hp := primeList_eq_filter
  have hk : kPrimeCount - 1 = 99999 := rfl
  refine ⟨?_, ?_, ?_, ?_⟩
  · rw [hp, hk, ← List.countP_eq_length_filter]
    have hc := countP_zero_bits sieveMaskLit 99999 2
    have hX : sieveMaskLit >>> 2 < 2 ^ 99999 := by decide
    have hstab := popcountLin_stable 99999 31073 (sieveMaskLit >>> 2) hX
    have hpceq := pcountAux_eq 17 (sieveMaskLit >>> 2)
    have h17 : (2 : Nat) ^ 17 = 99999 + 31073 := by norm_num
    rw [h17] at hpceq
    have hpc : pcountAux 17 (sieveMaskLit >>> 2) = 90407 := by decide
    omega
  · rw [hp, hk]
    decide
  · rw [hp, hk]
    have hsplit := List.range'_append 2 99989 10 1
    norm_num at hsplit
    rw [← hsplit, List.filter_append]
    have h10 : (List.range' 99991 10).filter
        (fun n => (sieveMaskLit >>> n) % 2 = 0) = [99991] := by decide
    rw [h10, List.getLast?_concat]
  · rw [hp]
    exact List.Pairwise.sublist (List.filter_sublist _)
      (List.pairwise_lt_range' 2 (kPrimeCount - 1) 1 (by norm_num))

end RunWorkers
